import Mathlib

/-!
Verification of the Argo NetCDF extraction pipeline in `app.py`.

The development shallowly embeds the three functions of the source file:

* `julian_to_datetime` (app.py lines 15-24): converts a day offset since
  1950-01-01 into an ISO-8601 string, returning `none` for missing, invalid
  or out-of-range inputs.  Python `datetime`/`timedelta` semantics are
  embedded explicitly: a `timedelta` built from a float amount of days is
  rounded to whole microseconds (round-half-to-even) and a `datetime` must
  fall within years 1 to 9999, otherwise `OverflowError` is raised, which
  the source catches and converts to `None`.
* `safe_stack` (app.py lines 58-66): stacks a measurement variable over the
  named dimensions `N_PROF` and `N_LEVELS`, yielding an empty frame when the
  variable is absent.
* `parse_argo_file` (app.py lines 27-110): the whole extraction pipeline.

Numeric scalars are modelled as `Val`: either `nan` (the missing marker of
floats, also produced by pandas for unmatched merges and absent columns) or
an exact rational.  Rational arithmetic is written directly on numerator and
denominator so that all definitions evaluate inside the kernel.
-/

/-- Decidable equality for `Except`, used to evaluate whole parse results on
concrete datasets. -/
instance {ε α : Type} [DecidableEq ε] [DecidableEq α] : DecidableEq (Except ε α) := fun a b =>
  match a, b with
  | .error x, .error y =>
    if h : x = y then .isTrue (by rw [h]) else .isFalse (fun hh => by cases hh; exact h rfl)
  | .ok x, .ok y =>
    if h : x = y then .isTrue (by rw [h]) else .isFalse (fun hh => by cases hh; exact h rfl)
  | .error _, .ok _ => .isFalse (fun hh => by cases hh)
  | .ok _, .error _ => .isFalse (fun hh => by cases hh)

/-- A floating-point scalar of the dataset: either the NaN marker or a finite
value (modelled as an exact rational). -/
inductive Val : Type
  | nan : Val
  | num (q : ℚ) : Val
deriving DecidableEq

/-- The pandas filter `profile_df["PRES"] > -9000` of app.py line 87: a NaN
compares as false, a number is kept exactly when it is greater than -9000. -/
def pres_keep (v : Val) : Bool :=
  match v with
  | .nan => false
  | .num q => decide (-9000 < q)

/-- The spec's missing-pressure rule: NaN or at most -9000 (the fill-value
sentinel threshold). -/
def pressureMissing (v : Val) : Prop :=
  match v with
  | .nan => True
  | .num q => q ≤ -9000

instance (v : Val) : Decidable (pressureMissing v) := by
  unfold pressureMissing; cases v <;> infer_instance

/-- The spec's missing rule for temperature and salinity: NaN only. -/
def value_missing (v : Val) : Prop := v = Val.nan

instance (v : Val) : Decidable (value_missing v) := by
  unfold value_missing; infer_instance

/-- An input handed to `julian_to_datetime`.  `nan` is a value for which
`pd.isna` is true; `notCoercible s` is a value on which `float()` raises
(e.g. the string "not-a-number"); `finite q` is a value whose float
coercion is the finite number `q`. -/
inductive JuldInput : Type
  | nan : JuldInput
  | notCoercible (s : String) : JuldInput
  | finite (q : ℚ) : JuldInput
deriving DecidableEq

/-- Round the fraction `n / d` (with `d ≠ 0`) to the nearest integer,
ties to even: the rounding CPython applies when a float number of days is
converted to whole microseconds inside `timedelta(days=...)`. -/
def roundHalfEvenFrac (n : Int) (d : Nat) : Int :=
  let f := Int.fdiv n (Int.ofNat d)
  let r2 := 2 * (n - f * (Int.ofNat d))
  if r2 < (Int.ofNat d) then f
  else if (Int.ofNat d) < r2 then f + 1
  else if f % 2 = 0 then f else f + 1

/-- Whole microseconds of `timedelta(days=q)`: `q * 86400000000` rounded
half-to-even, written on numerator and denominator directly. -/
def juldMicros (q : ℚ) : Int := roundHalfEvenFrac (q.num * 86400000000) q.den

/-- Microseconds from 0001-01-01T00:00:00 (the smallest Python `datetime`)
to the epoch 1950-01-01T00:00:00: `datetime(1950,1,1).toordinal() = 711858`,
so the epoch lies 711857 days after 0001-01-01. -/
def epochMicros : Int := 711857 * 86400000000

/-- Microseconds spanned by the whole representable `datetime` range:
`date.max.toordinal() = 3652059` days from 0001-01-01 up to the end of
9999-12-31. -/
def maxMicros : Int := 3652059 * 86400000000

/-- Left-pad the decimal form of `n` with zeros to width `w`, as the fixed
width fields of `datetime.isoformat()` do. -/
def pad (w n : Nat) : String :=
  let s := toString n
  if s.length < w then String.mk (List.replicate (w - s.length) '0') ++ s else s

/-- Proleptic Gregorian civil date `(year, month, day)` of a day count since
0001-01-01 (day 0), for day counts inside the `datetime` range. -/
def civilFromDays (d : Nat) : Nat × Nat × Nat :=
  let z := d + 306
  let era := z / 146097
  let doe := z % 146097
  let yoe := (doe - doe / 1460 + doe / 36524 - doe / 146096) / 365
  let y := yoe + era * 400
  let doy := doe - (365 * yoe + yoe / 4 - yoe / 100)
  let mp := (5 * doy + 2) / 153
  let dd := doy - (153 * mp + 2) / 5 + 1
  let m := if mp < 10 then mp + 3 else mp - 9
  (if m ≤ 2 then y + 1 else y, m, dd)

/-- The string `datetime.isoformat()` produces for the instant `T`
microseconds after 0001-01-01T00:00:00: date and time separated by `T`,
two-digit fields, a 4-digit year, the microsecond part printed only when it
is nonzero, and no timezone suffix. -/
def formatDateTime (T : Nat) : String :=
  let day := T / 86400000000
  let tod := T % 86400000000
  let c := civilFromDays day
  let sec := tod / 1000000
  let us := tod % 1000000
  pad 4 c.1 ++ "-" ++ pad 2 c.2.1 ++ "-" ++ pad 2 c.2.2 ++ "T" ++
  pad 2 (sec / 3600) ++ ":" ++ pad 2 (sec / 60 % 60) ++ ":" ++ pad 2 (sec % 60) ++
  (if us = 0 then "" else "." ++ pad 6 us)

/-- app.py lines 15-24.  `pd.isna` input returns `None`; a `float()` failure
is caught by the bare `except` and returns `None`; otherwise
`datetime(1950,1,1) + timedelta(days=float(juld_days))` is formatted with
`isoformat()`, and an `OverflowError` (result outside years 1-9999, or a
`timedelta` overflow, which only happens even further out) is caught and
returns `None`. -/
def julian_to_datetime : JuldInput → Option String
  | .nan => none
  | .notCoercible _ => none
  | .finite q =>
    let T := epochMicros + juldMicros q
    if 0 ≤ T ∧ T < maxMicros then some (formatDateTime T.toNat) else none

/-- Sanity check of the calendar embedding: the epoch day is 1950-01-01. -/
theorem civilFromDays_epoch : civilFromDays 711857 = (1950, 1, 1) := by decide

/-- Sanity check of the calendar embedding: day 0 is 0001-01-01 and the last
representable day is 9999-12-31. -/
theorem civilFromDays_range : civilFromDays 0 = (1, 1, 1) ∧ civilFromDays 3652058 = (9999, 12, 31) := by
  exact ⟨by decide, by decide⟩

/-- Sanity check: a leap day inside the epoch era. -/
theorem civilFromDays_leap : civilFromDays (711857 + 789) = (1952, 2, 29) := by decide

/-- A measurement variable of the dataset.  `val` is the stored array; when
`transposed` is false its dimensions are `(N_PROF, N_LEVELS)`, when true they
are `(N_LEVELS, N_PROF)`.  NetCDF dimensions are named, so xarray addresses
the variable by dimension name, not by storage position. -/
structure Grid : Type where
  transposed : Bool
  val : Nat → Nat → Val

/-- Value of a grid at profile `i` and level `j`, resolved through the named
dimensions exactly as xarray does. -/
def Grid.cell (g : Grid) (i j : Nat) : Val :=
  if g.transposed then g.val j i else g.val i j

/-- The same variable stored with its two dimensions in the other order. -/
def Grid.swapDims (g : Grid) : Grid :=
  ⟨!g.transposed, fun i j => g.val j i⟩

/-- The `PLATFORM_NUMBER` variable: either a scalar (a 0-d array, on which
the `"".join` of app.py line 35 raises and the fallback of line 37 applies)
or an array of per-profile string values. -/
inductive PlatformVar : Type
  | scalar (s : String) : PlatformVar
  | array (l : List String) : PlatformVar
deriving DecidableEq

/-- Python `str.strip()` on the character list model of strings. -/
def pystrip (s : String) : String :=
  String.mk (((s.toList.dropWhile Char.isWhitespace).reverse.dropWhile Char.isWhitespace).reverse)

/-- app.py lines 33-39 (given that `PLATFORM_NUMBER` exists): the array case
is `"".join(values.astype(str)).strip()`; the scalar case is the fallback
`str(values.flatten()[0]).strip()` taken when the join raises. -/
def platform_to_id : PlatformVar → String
  | .scalar s => pystrip s
  | .array l => pystrip (String.join l)

/-- An opened NetCDF-like dataset: each variable is present or absent, and
`nProf` and `nLevels` are the sizes of the dimensions `N_PROF` and
`N_LEVELS`.  The raw `TEMP` and `PSAL` variables are part of the dataset but
the source never reads them. -/
structure Dataset : Type where
  platform : Option PlatformVar
  cycle_number : Option (List Val)
  juld : Option (List JuldInput)
  latitude : Option (List Val)
  longitude : Option (List Val)
  data_mode : Option (List Char)
  nProf : Nat
  nLevels : Nat
  pres : Option Grid
  temp : Option Grid
  temp_adjusted : Option Grid
  psal : Option Grid
  psal_adjusted : Option Grid

/-- One element of the list returned by `parse_argo_file` (the
`to_dict("records")` of app.py line 106 restricted to `final_columns`). -/
structure Record : Type where
  wmo_float_id : String
  cycle_id : Val
  date_time_utc : Option String
  latitude : Val
  longitude : Val
  pressure_dbar : Val
  temperature_c : Val
  salinity_psu : Val
  data_mode : Option Char
deriving DecidableEq

/-- app.py lines 33-39: the float identifier, `"UNKNOWN"` when
`PLATFORM_NUMBER` is absent. -/
def wmoFloatId (ds : Dataset) : String :=
  match ds.platform with
  | some p => platform_to_id p
  | none => "UNKNOWN"

/-- app.py lines 42-45: the first required metadata variable that is absent,
in the order of `required_meta_vars`. -/
def missingMeta (ds : Dataset) : Option String :=
  if ds.cycle_number.isNone then some "CYCLE_NUMBER"
  else if ds.juld.isNone then some "JULD"
  else if ds.latitude.isNone then some "LATITUDE"
  else if ds.longitude.isNone then some "LONGITUDE"
  else if ds.data_mode.isNone then some "DATA_MODE"
  else none

/-- The `pd.DataFrame` constructor of app.py lines 47-53 requires all five
metadata columns to have the same length. -/
def sameLengths (ds : Dataset) : Prop :=
  (ds.juld.getD []).length = (ds.cycle_number.getD []).length ∧
  (ds.latitude.getD []).length = (ds.cycle_number.getD []).length ∧
  (ds.longitude.getD []).length = (ds.cycle_number.getD []).length ∧
  (ds.data_mode.getD []).length = (ds.cycle_number.getD []).length

instance instDecSameLengths (ds : Dataset) : Decidable (sameLengths ds) := by
  unfold sameLengths; infer_instance

/-- app.py lines 58-66: stacking a variable over the named dimensions
`(N_PROF, N_LEVELS)` yields its per-(profile, level) values; an absent
variable yields the empty frame, modelled as `none`. -/
def safe_stack (v : Option Grid) : Option (Nat → Nat → Val) :=
  v.map Grid.cell

/-- The value a stacked variable contributes at profile `i`, level `j`:
its cell when the variable exists, otherwise the NaN an absent column is
filled with (app.py lines 76-79 skip the merge and line 104 fills NaN). -/
def stackVal (v : Option Grid) (i j : Nat) : Val :=
  match safe_stack v with
  | some f => f i j
  | none => Val.nan

/-- The `pressures_df.empty` test of app.py line 72: the stacked `PRES`
frame is empty when the variable is absent or either dimension has size
zero. -/
def stackEmpty (ds : Dataset) : Bool :=
  ds.pres.isNone || ds.nProf == 0 || ds.nLevels == 0

/-- The (profile, level) index pairs that survive the fill-value filter of
app.py lines 86-87: the stacked rows in row-major order, restricted to rows
whose `PRES` value is greater than -9000 (NaN compares false). -/
def keptKeys (ds : Dataset) : List (Nat × Nat) :=
  (((List.range ds.nProf).flatMap fun i =>
    (List.range ds.nLevels).map fun j => (i, j)).filter
      fun ij => pres_keep (stackVal ds.pres ij.1 ij.2))

/-- The output row built for profile `i`, level `j`: measurement values from
the stacked arrays (app.py lines 68-79), cycle metadata joined by profile
index with a left merge (line 82, unmatched rows turning into NaN/None), the
timestamp from `julian_to_datetime` (line 55), and the single file-wide
float identifier (line 96). -/
def dsRecord (ds : Dataset) (i j : Nat) : Record where
  wmo_float_id := wmoFloatId ds
  cycle_id := (ds.cycle_number.getD []).getD i Val.nan
  date_time_utc := julian_to_datetime ((ds.juld.getD []).getD i JuldInput.nan)
  latitude := (ds.latitude.getD []).getD i Val.nan
  longitude := (ds.longitude.getD []).getD i Val.nan
  pressure_dbar := stackVal ds.pres i j
  temperature_c := stackVal ds.temp_adjusted i j
  salinity_psu := stackVal ds.psal_adjusted i j
  data_mode := (ds.data_mode.getD []).get? i

/-- app.py lines 27-106, inside the outer `try`: the metadata presence check
(lines 42-45), the DataFrame length requirement (lines 47-53), the empty
pressure frame check (lines 72-73), then the filtered, merged and renamed
rows in stacking order. -/
def parse_argo_inner (ds : Dataset) : Except String (List Record) :=
  match missingMeta ds with
  | some v => .error ("Missing expected variable: " ++ v)
  | none =>
    if sameLengths ds then
      if stackEmpty ds then .error "No pressure data available in file."
      else .ok ((keptKeys ds).map fun ij => dsRecord ds ij.1 ij.2)
    else .error "All arrays must be of the same length"

/-- app.py lines 27-110: any failure of the body is re-raised as
`ValueError("Failed to process NetCDF file: ...")` with the original
message appended (lines 108-110). -/
def parse_argo_file (ds : Dataset) : Except String (List Record) :=
  match parse_argo_inner ds with
  | .error e => .error ("Failed to process NetCDF file: " ++ e)
  | .ok r => .ok r

/-- The conditions under which extraction accepts a dataset. -/
def checksPass (ds : Dataset) : Prop :=
  missingMeta ds = none ∧ sameLengths ds ∧ stackEmpty ds = false

/-- Characterization of a successful parse: the checks pass and the result
is the filtered stacked grid mapped to output rows. -/
theorem parse_ok_iff (ds : Dataset) (recs : List Record) :
    parse_argo_file ds = .ok recs ↔
      (checksPass ds ∧ recs = (keptKeys ds).map fun ij => dsRecord ds ij.1 ij.2) := by
  unfold parse_argo_file parse_argo_inner checksPass
  rcases hm : missingMeta ds with _ | v
  · by_cases hl : sameLengths ds
    · rcases he : stackEmpty ds with _ | _
      · simp [hl, he, eq_comm]
      · simp [hl, he]
    · simp [hl]
  · simp

/-- Membership in the kept rows: in-range indices whose pressure value
passes the fill-value filter. -/
theorem mem_keptKeys (ds : Dataset) (i j : Nat) :
    (i, j) ∈ keptKeys ds ↔
      (i < ds.nProf ∧ j < ds.nLevels ∧ pres_keep (stackVal ds.pres i j) = true) := by
  unfold keptKeys
  simp only [List.mem_filter, List.mem_flatMap, List.mem_map, List.mem_range]
  constructor
  · rintro ⟨⟨a, ha, b, hb, hab⟩, hkeep⟩
    cases hab
    exact ⟨ha, hb, hkeep⟩
  · rintro ⟨hi, hj, hkeep⟩
    exact ⟨⟨i, hi, j, hj, rfl⟩, hkeep⟩

/-- The pandas filter keeps exactly the finite pressure values above the
sentinel threshold. -/
theorem pres_keep_iff (v : Val) :
    pres_keep v = true ↔ ∃ q : ℚ, v = Val.num q ∧ -9000 < q := by
  cases v <;> simp [pres_keep]

/-- The pandas filter is the complement of the spec's missing-pressure
predicate. -/
theorem pres_keep_not_missing (v : Val) :
    pres_keep v = true ↔ ¬ pressureMissing v := by
  cases v <;> simp [pres_keep, pressureMissing]

/-- Swapping the stored dimension order does not change the value addressed
through the named dimensions. -/
theorem Grid.cell_swapDims (g : Grid) (i j : Nat) : g.swapDims.cell i j = g.cell i j := by
  unfold Grid.swapDims Grid.cell
  cases g.transposed <;> simp

/-- The dataset with every measurement variable stored in the other
dimension order. -/
def transposeAll (ds : Dataset) : Dataset :=
  { ds with
    pres := ds.pres.map Grid.swapDims
    temp := ds.temp.map Grid.swapDims
    temp_adjusted := ds.temp_adjusted.map Grid.swapDims
    psal := ds.psal.map Grid.swapDims
    psal_adjusted := ds.psal_adjusted.map Grid.swapDims }

/-- Stacked values are unchanged by storage order. -/
theorem stackVal_swap (v : Option Grid) (i j : Nat) :
    stackVal (v.map Grid.swapDims) i j = stackVal v i j := by
  cases v with
  | none => rfl
  | some g => simp [stackVal, safe_stack, Grid.cell_swapDims]

theorem keptKeys_transposeAll (ds : Dataset) : keptKeys (transposeAll ds) = keptKeys ds := by
  unfold keptKeys
  simp only [transposeAll, stackVal_swap]

theorem dsRecord_transposeAll (ds : Dataset) (i j : Nat) :
    dsRecord (transposeAll ds) i j = dsRecord ds i j := by
  unfold dsRecord wmoFloatId
  simp only [transposeAll, stackVal_swap]

theorem stackEmpty_transposeAll (ds : Dataset) : stackEmpty (transposeAll ds) = stackEmpty ds := by
  unfold stackEmpty transposeAll
  cases ds.pres <;> simp

/-- C9: extraction is invariant under the stored dimension order of the
measurement arrays, because xarray stacks by dimension name. -/
theorem C9_transposed_identical (ds : Dataset) :
    parse_argo_file (transposeAll ds) = parse_argo_file ds := by
  unfold parse_argo_file parse_argo_inner
  have hm : missingMeta (transposeAll ds) = missingMeta ds := rfl
  have hsl : sameLengths (transposeAll ds) = sameLengths ds := rfl
  rw [hm]
  simp only [hsl, stackEmpty_transposeAll, keptKeys_transposeAll, dsRecord_transposeAll]

/-- C6: the time converter returns null for NaN/missing input, for input
that float() cannot coerce, and for any finite offset whose target date
overflows the representable datetime range; being a total function into
`Option`, it never raises. -/
theorem C6_invalid_inputs_null :
    julian_to_datetime JuldInput.nan = none ∧
    (∀ s : String, julian_to_datetime (JuldInput.notCoercible s) = none) ∧
    (∀ q : ℚ, (epochMicros + juldMicros q < 0 ∨ maxMicros ≤ epochMicros + juldMicros q) →
      julian_to_datetime (JuldInput.finite q) = none) := by
  refine ⟨rfl, fun s => rfl, fun q h => ?_⟩
  show (if 0 ≤ epochMicros + juldMicros q ∧ epochMicros + juldMicros q < maxMicros
      then some (formatDateTime (epochMicros + juldMicros q).toNat) else none) = none
  rw [if_neg]
  rintro ⟨h1, h2⟩
  rcases h with h | h <;> omega

theorem C6_invalid_inputs_null_witness :
    (epochMicros + juldMicros 10000000000 < 0 ∨
      maxMicros ≤ epochMicros + juldMicros 10000000000) ∧
    julian_to_datetime (JuldInput.finite 10000000000) = none :=
  ⟨by decide, C6_invalid_inputs_null.2.2 10000000000 (by decide)⟩

/-- C7 as stated is false: 10^9 is a finite day offset, yet the converter
returns null (the target date lies beyond year 9999) instead of an
ISO-8601 string. -/
theorem C7_counterexample :
    julian_to_datetime (JuldInput.finite 1000000000) = none ∧
    (∀ s : String, (none : Option String) ≠ some s) :=
  ⟨by decide, fun _ h => by cases h⟩

/-- C7 amended: for every finite day offset whose target instant stays
inside the representable datetime range (years 1 to 9999), the converter
returns the ISO-8601 rendering, with no timezone suffix, of
1950-01-01T00:00:00 plus that many days, with sub-day (microsecond)
precision; offset 0 yields "1950-01-01T00:00:00" and offset 1/2 yields
"1950-01-01T12:00:00". -/
theorem C7_amended_in_range :
    (∀ q : ℚ, 0 ≤ epochMicros + juldMicros q → epochMicros + juldMicros q < maxMicros →
      julian_to_datetime (JuldInput.finite q) =
        some (formatDateTime (epochMicros + juldMicros q).toNat)) ∧
    julian_to_datetime (JuldInput.finite 0) = some "1950-01-01T00:00:00" ∧
    julian_to_datetime (JuldInput.finite ⟨1, 2, by norm_num, by norm_num⟩) =
      some "1950-01-01T12:00:00" := by
  refine ⟨fun q h1 h2 => ?_, by decide, by decide⟩
  show (if 0 ≤ epochMicros + juldMicros q ∧ epochMicros + juldMicros q < maxMicros
      then some (formatDateTime (epochMicros + juldMicros q).toNat) else none) =
    some (formatDateTime (epochMicros + juldMicros q).toNat)
  rw [if_pos ⟨h1, h2⟩]

theorem C7_amended_in_range_witness :
    julian_to_datetime (JuldInput.finite 365) =
      some (formatDateTime (epochMicros + juldMicros 365).toNat) :=
  C7_amended_in_range.1 365 (by decide) (by decide)

/-- Grid stored profile-major, with NaN outside the given rows. -/
def gridOf (rows : List (List Val)) : Grid :=
  ⟨false, fun i j => (rows.getD i []).getD j Val.nan⟩

/-- One-profile dataset in real-time mode whose raw and adjusted values
differ in every quantity. -/
def dsC1 : Dataset where
  platform := some (PlatformVar.array ["X1"])
  cycle_number := some [Val.num 1]
  juld := some [JuldInput.nan]
  latitude := some [Val.num 0]
  longitude := some [Val.num 0]
  data_mode := some ['R']
  nProf := 1
  nLevels := 1
  pres := some (gridOf [[Val.num 100]])
  temp := some (gridOf [[Val.num 10]])
  temp_adjusted := some (gridOf [[Val.num 11]])
  psal := some (gridOf [[Val.num 35]])
  psal_adjusted := some (gridOf [[Val.num 36]])

/-- The single record extraction emits for `dsC1`. -/
def recC1 : Record where
  wmo_float_id := "X1"
  cycle_id := Val.num 1
  date_time_utc := none
  latitude := Val.num 0
  longitude := Val.num 0
  pressure_dbar := Val.num 100
  temperature_c := Val.num 11
  salinity_psu := Val.num 36
  data_mode := some 'R'

/-- C1 as stated is false: `dsC1` has `data_mode = 'R'`, raw temperature 10
and raw salinity 35, yet the emitted values are the adjusted 11 and 36 —
the selector never consults `data_mode` and never reads the raw arrays. -/
theorem C1_counterexample :
    parse_argo_file dsC1 = .ok [recC1] ∧
    dsC1.data_mode = some ['R'] ∧
    stackVal dsC1.temp 0 0 = Val.num 10 ∧
    stackVal dsC1.psal 0 0 = Val.num 35 ∧
    recC1.temperature_c ≠ Val.num 10 ∧
    recC1.salinity_psu ≠ Val.num 35 := by decide

/-- C1 amended: for every profile of an accepted dataset and every retained
level, the emitted temperature and salinity equal the `TEMP_ADJUSTED` and
`PSAL_ADJUSTED` cells of that profile whenever those variables exist —
independently of `data_mode` (no hypothesis on it), so `'R'` profiles also
receive adjusted values and the raw arrays are never read. -/
theorem C1_amended_adjusted_always (ds : Dataset) (recs : List Record)
    (h : parse_argo_file ds = .ok recs) (i j : Nat)
    (hi : i < ds.nProf) (hj : j < ds.nLevels)
    (hk : pres_keep (stackVal ds.pres i j) = true) :
    dsRecord ds i j ∈ recs ∧
    (∀ gT : Grid, ds.temp_adjusted = some gT → (dsRecord ds i j).temperature_c = gT.cell i j) ∧
    (∀ gS : Grid, ds.psal_adjusted = some gS → (dsRecord ds i j).salinity_psu = gS.cell i j) := by
  rcases (parse_ok_iff ds recs).1 h with ⟨-, rfl⟩
  refine ⟨List.mem_map.2 ⟨(i, j), (mem_keptKeys ds i j).2 ⟨hi, hj, hk⟩, rfl⟩, ?_, ?_⟩
  · rintro gT hT
    simp [dsRecord, stackVal, safe_stack, hT]
  · rintro gS hS
    simp [dsRecord, stackVal, safe_stack, hS]

theorem C1_amended_adjusted_always_witness :
    dsRecord dsC1 0 0 ∈ [recC1] ∧
    (dsRecord dsC1 0 0).temperature_c = (gridOf [[Val.num 11]]).cell 0 0 ∧
    (dsRecord dsC1 0 0).salinity_psu = (gridOf [[Val.num 36]]).cell 0 0 := by
  obtain ⟨h1, h2, h3⟩ :=
    C1_amended_adjusted_always dsC1 [recC1] (by decide) 0 0 (by decide) (by decide) (by decide)
  exact ⟨h1, h2 _ rfl, h3 _ rfl⟩

/-- One-profile delayed-mode dataset from which `PSAL_ADJUSTED` is entirely
absent while raw `PSAL` is present. -/
def dsC2 : Dataset where
  platform := some (PlatformVar.array ["77"])
  cycle_number := some [Val.num 3]
  juld := some [JuldInput.nan]
  latitude := some [Val.num 1]
  longitude := some [Val.num 2]
  data_mode := some ['D']
  nProf := 1
  nLevels := 1
  pres := some (gridOf [[Val.num 10]])
  temp := some (gridOf [[Val.num 12]])
  temp_adjusted := some (gridOf [[Val.num 13]])
  psal := some (gridOf [[Val.num 35]])
  psal_adjusted := none

/-- The single record extraction emits for `dsC2`. -/
def recC2 : Record where
  wmo_float_id := "77"
  cycle_id := Val.num 3
  date_time_utc := none
  latitude := Val.num 1
  longitude := Val.num 2
  pressure_dbar := Val.num 10
  temperature_c := Val.num 13
  salinity_psu := Val.nan
  data_mode := some 'D'

/-- C2 as stated is false on its second half: with `PSAL_ADJUSTED` absent
and `data_mode = 'D'`, extraction indeed does not fail, but the emitted
salinity is NaN, not the raw `PSAL` value 35. -/
theorem C2_counterexample :
    parse_argo_file dsC2 = .ok [recC2] ∧
    dsC2.psal_adjusted.isNone = true ∧
    dsC2.data_mode = some ['D'] ∧
    stackVal dsC2.psal 0 0 = Val.num 35 ∧
    recC2.salinity_psu = Val.nan ∧
    Val.nan ≠ Val.num 35 := by decide

/-- C2 amended: removing the `PSAL_ADJUSTED` variable from an accepted
dataset never makes extraction fail, but the emitted salinity becomes the
missing marker NaN for every record — the raw `PSAL` variable is not used. -/
theorem C2_amended_nan_not_raw (ds : Dataset) (recs : List Record)
    (h : parse_argo_file ds = .ok recs) :
    ∃ recs2, parse_argo_file { ds with psal_adjusted := none } = .ok recs2 ∧
      ∀ r ∈ recs2, r.salinity_psu = Val.nan := by
  rcases (parse_ok_iff ds recs).1 h with ⟨hc, -⟩
  refine ⟨_, (parse_ok_iff _ _).2 ⟨hc, rfl⟩, ?_⟩
  rintro r hr
  rcases List.mem_map.1 hr with ⟨ij, -, rfl⟩
  rfl

theorem C2_amended_nan_not_raw_witness :
    ∃ recs2, parse_argo_file { dsC2 with psal_adjusted := none } = .ok recs2 ∧
      ∀ r ∈ recs2, r.salinity_psu = Val.nan :=
  C2_amended_nan_not_raw dsC2 [recC2] (by decide)

/-- The pressure value 5.2 of the spec's retained-level example. -/
def q52 : ℚ := ⟨26, 5, by norm_num, by norm_num⟩

/-- The salinity value 35.1 of the spec's retained-level example. -/
def q351 : ℚ := ⟨351, 10, by norm_num, by norm_num⟩

/-- One-profile dataset whose only level has pressure 5.2, temperature NaN
and salinity 35.1. -/
def dsC3 : Dataset where
  platform := some (PlatformVar.array ["A"])
  cycle_number := some [Val.num 7]
  juld := some [JuldInput.nan]
  latitude := some [Val.num 0]
  longitude := some [Val.num 0]
  data_mode := some ['D']
  nProf := 1
  nLevels := 1
  pres := some (gridOf [[Val.num q52]])
  temp := none
  temp_adjusted := some (gridOf [[Val.nan]])
  psal := none
  psal_adjusted := some (gridOf [[Val.num q351]])

/-- The single record extraction emits for `dsC3`. -/
def recC3 : Record where
  wmo_float_id := "A"
  cycle_id := Val.num 7
  date_time_utc := none
  latitude := Val.num 0
  longitude := Val.num 0
  pressure_dbar := Val.num q52
  temperature_c := Val.nan
  salinity_psu := Val.num q351
  data_mode := some 'D'

/-- One-profile dataset whose only level has pressure NaN but present
temperature 10 and salinity 35. -/
def dsC3c : Dataset where
  platform := some (PlatformVar.array ["B"])
  cycle_number := some [Val.num 8]
  juld := some [JuldInput.nan]
  latitude := some [Val.num 0]
  longitude := some [Val.num 0]
  data_mode := some ['R']
  nProf := 1
  nLevels := 1
  pres := some (gridOf [[Val.nan]])
  temp := none
  temp_adjusted := some (gridOf [[Val.num 10]])
  psal := none
  psal_adjusted := some (gridOf [[Val.num 35]])

/-- C3 as stated is false: in `dsC3c` the level's temperature 10 and
salinity 35 are present (so not all three quantities are missing), yet the
level produces zero records, because the filter drops every level whose
pressure is missing, regardless of temperature and salinity. -/
theorem C3_counterexample :
    parse_argo_file dsC3c = .ok [] ∧
    ¬ value_missing (stackVal dsC3c.temp_adjusted 0 0) ∧
    ¬ value_missing (stackVal dsC3c.psal_adjusted 0 0) ∧
    pressureMissing (stackVal dsC3c.pres 0 0) := by decide

/-- C3 amended: a level is dropped (contributes no record) if and only if
its pressure is missing — NaN or at most -9000 — independently of
temperature and salinity; the level (pressure 5.2, temperature NaN,
salinity 35.1) is retained as one record with NaN temperature. -/
theorem C3_amended_pressure_decides :
    (∀ (ds : Dataset) (i j : Nat), i < ds.nProf → j < ds.nLevels →
      ((i, j) ∈ keptKeys ds ↔ ¬ pressureMissing (stackVal ds.pres i j))) ∧
    parse_argo_file dsC3 = .ok [recC3] ∧
    recC3.pressure_dbar = Val.num q52 ∧
    recC3.temperature_c = Val.nan ∧
    recC3.salinity_psu = Val.num q351 := by
  refine ⟨fun ds i j hi hj => ?_, by decide, by decide, by decide, by decide⟩
  rw [mem_keptKeys, ← pres_keep_not_missing]
  simp [hi, hj]

theorem C3_amended_pressure_decides_witness :
    (0, 0) ∈ keptKeys dsC3 ↔ ¬ pressureMissing (stackVal dsC3.pres 0 0) :=
  C3_amended_pressure_decides.1 dsC3 0 0 (by decide) (by decide)

/-- Dataset with full metadata but no `PRES` variable at all. -/
def dsC4 : Dataset where
  platform := some (PlatformVar.array ["42"])
  cycle_number := some [Val.num 1]
  juld := some [JuldInput.nan]
  latitude := some [Val.num 0]
  longitude := some [Val.num 0]
  data_mode := some ['R']
  nProf := 1
  nLevels := 1
  pres := none
  temp := some (gridOf [[Val.num 1]])
  temp_adjusted := some (gridOf [[Val.num 1]])
  psal := some (gridOf [[Val.num 1]])
  psal_adjusted := some (gridOf [[Val.num 1]])

set_option maxRecDepth 10000 in
/-- C4 as stated is false on its last clause: with `PRES` absent the file
does fail with a single file-level error, but the message is "Failed to
process NetCDF file: No pressure data available in file.", which does not
contain the variable name `PRES`. -/
theorem C4_counterexample :
    parse_argo_file dsC4 =
      .error "Failed to process NetCDF file: No pressure data available in file." ∧
    ¬ ("PRES".toList <:+:
      "Failed to process NetCDF file: No pressure data available in file.".toList) :=
  ⟨by decide, by decide⟩

set_option maxRecDepth 10000 in
/-- C4 amended: for every dataset with the metadata variables present but
the `PRES` variable entirely absent, extraction fails with the single
file-level error "Failed to process NetCDF file: No pressure data available
in file." — a message that describes the missing pressure data without
naming the variable `PRES`. -/
theorem C4_amended_error_no_name (ds : Dataset)
    (hp : ds.pres = none) (hm : missingMeta ds = none) (hl : sameLengths ds) :
    parse_argo_file ds =
      .error "Failed to process NetCDF file: No pressure data available in file." ∧
    ¬ ("PRES".toList <:+:
      "Failed to process NetCDF file: No pressure data available in file.".toList) := by
  refine ⟨?_, by decide⟩
  have he : stackEmpty ds = true := by unfold stackEmpty; rw [hp]; rfl
  unfold parse_argo_file parse_argo_inner
  simp [hm, hl, he]

set_option maxRecDepth 10000 in
theorem C4_amended_error_no_name_witness :
    parse_argo_file dsC4 =
      .error "Failed to process NetCDF file: No pressure data available in file." ∧
    ¬ ("PRES".toList <:+:
      "Failed to process NetCDF file: No pressure data available in file.".toList) :=
  C4_amended_error_no_name dsC4 rfl (by decide) (by decide)

/-- C5: every emitted record's pressure is either missing or a finite value
strictly greater than the -9000 sentinel threshold (the filter in fact
never lets a missing pressure through either). -/
theorem C5_pressure_above_sentinel (ds : Dataset) (recs : List Record)
    (h : parse_argo_file ds = .ok recs) (r : Record) (hr : r ∈ recs) :
    r.pressure_dbar = Val.nan ∨ ∃ q : ℚ, r.pressure_dbar = Val.num q ∧ -9000 < q := by
  rcases (parse_ok_iff ds recs).1 h with ⟨-, rfl⟩
  rcases List.mem_map.1 hr with ⟨ij, hk, rfl⟩
  rcases (pres_keep_iff _).1 ((mem_keptKeys ds ij.1 ij.2).1 hk).2.2 with ⟨q, hq, hgt⟩
  exact Or.inr ⟨q, by rw [show (dsRecord ds ij.1 ij.2).pressure_dbar =
    stackVal ds.pres ij.1 ij.2 from rfl, hq], hgt⟩

/-- One-profile dataset used to instantiate the invariant claims. -/
def dsC5 : Dataset where
  platform := some (PlatformVar.array ["C5"])
  cycle_number := some [Val.num 2]
  juld := some [JuldInput.finite 0]
  latitude := some [Val.num 10]
  longitude := some [Val.num 20]
  data_mode := some ['A']
  nProf := 1
  nLevels := 2
  pres := some (gridOf [[Val.num 1, Val.num (-9999)]])
  temp := none
  temp_adjusted := some (gridOf [[Val.num 4, Val.num 5]])
  psal := none
  psal_adjusted := some (gridOf [[Val.num 6, Val.num 7]])

/-- The single record extraction emits for `dsC5` (its second level is a
fill value and is dropped). -/
def recC5 : Record where
  wmo_float_id := "C5"
  cycle_id := Val.num 2
  date_time_utc := some "1950-01-01T00:00:00"
  latitude := Val.num 10
  longitude := Val.num 20
  pressure_dbar := Val.num 1
  temperature_c := Val.num 4
  salinity_psu := Val.num 6
  data_mode := some 'A'

theorem C5_pressure_above_sentinel_witness :
    recC5.pressure_dbar = Val.nan ∨
      ∃ q : ℚ, recC5.pressure_dbar = Val.num q ∧ -9000 < q :=
  C5_pressure_above_sentinel dsC5 [recC5] (by decide) recC5 (by decide)

/-- Two-profile dataset whose `PLATFORM_NUMBER` carries a distinct
identifier per profile. -/
def dsC8 : Dataset where
  platform := some (PlatformVar.array ["123", "456"])
  cycle_number := some [Val.num 1, Val.num 2]
  juld := some [JuldInput.nan, JuldInput.nan]
  latitude := some [Val.num 0, Val.num 0]
  longitude := some [Val.num 0, Val.num 0]
  data_mode := some ['R', 'D']
  nProf := 2
  nLevels := 1
  pres := some (gridOf [[Val.num 5], [Val.num 6]])
  temp := none
  temp_adjusted := some (gridOf [[Val.num 1], [Val.num 2]])
  psal := none
  psal_adjusted := some (gridOf [[Val.num 3], [Val.num 4]])

/-- The record extraction emits for the first profile of `dsC8`. -/
def recC8a : Record where
  wmo_float_id := "123456"
  cycle_id := Val.num 1
  date_time_utc := none
  latitude := Val.num 0
  longitude := Val.num 0
  pressure_dbar := Val.num 5
  temperature_c := Val.num 1
  salinity_psu := Val.num 3
  data_mode := some 'R'

/-- The record extraction emits for the second profile of `dsC8`. -/
def recC8b : Record where
  wmo_float_id := "123456"
  cycle_id := Val.num 2
  date_time_utc := none
  latitude := Val.num 0
  longitude := Val.num 0
  pressure_dbar := Val.num 6
  temperature_c := Val.num 2
  salinity_psu := Val.num 4
  data_mode := some 'D'

/-- C8 as stated is false: a multi-float file with per-profile identifiers
"123" and "456" does not emit per-profile identifiers; both profiles'
records carry the single concatenation "123456" of all identifier values. -/
theorem C8_counterexample :
    parse_argo_file dsC8 = .ok [recC8a, recC8b] ∧
    dsC8.platform = some (PlatformVar.array ["123", "456"]) ∧
    recC8a.wmo_float_id = "123456" ∧
    recC8b.wmo_float_id = "123456" ∧
    recC8a.wmo_float_id ≠ "123" ∧
    recC8b.wmo_float_id ≠ "456" := by decide

/-- C8 amended: the float identifier is computed once per file — the
whitespace-trimmed string of a scalar `PLATFORM_NUMBER`, or the
whitespace-trimmed concatenation of all its string values when it is an
array — and that single value is attached to every emitted record, so a
scalar identifier is indeed broadcast to every profile, but a multi-float
file receives the concatenation of all its identifiers rather than one
identifier per profile. -/
theorem C8_amended_file_wide_id (ds : Dataset) (recs : List Record)
    (p : PlatformVar) (hp : ds.platform = some p)
    (h : parse_argo_file ds = .ok recs) :
    ∀ r ∈ recs, r.wmo_float_id = platform_to_id p := by
  rcases (parse_ok_iff ds recs).1 h with ⟨-, rfl⟩
  rintro r hr
  rcases List.mem_map.1 hr with ⟨ij, -, rfl⟩
  simp [dsRecord, wmoFloatId, hp]

theorem C8_amended_file_wide_id_witness :
    recC8a.wmo_float_id = platform_to_id (PlatformVar.array ["123", "456"]) :=
  C8_amended_file_wide_id dsC8 [recC8a, recC8b] _ rfl (by decide) recC8a (by decide)

/-- C10: all records of one extraction carry the same float identifier, and
dropping the `PLATFORM_NUMBER` variable from an accepted dataset leaves
extraction successful with the identifier "UNKNOWN" on every record. -/
theorem C10_uniform_float_id (ds : Dataset) (recs : List Record)
    (h : parse_argo_file ds = .ok recs) :
    (∀ r ∈ recs, ∀ r2 ∈ recs, r.wmo_float_id = r2.wmo_float_id) ∧
    (∃ recs2, parse_argo_file { ds with platform := none } = .ok recs2 ∧
      ∀ r ∈ recs2, r.wmo_float_id = "UNKNOWN") := by
  rcases (parse_ok_iff ds recs).1 h with ⟨hc, rfl⟩
  constructor
  · rintro r hr r2 hr2
    rcases List.mem_map.1 hr with ⟨ij, -, rfl⟩
    rcases List.mem_map.1 hr2 with ⟨ij2, -, rfl⟩
    rfl
  · refine ⟨_, (parse_ok_iff _ _).2 ⟨hc, rfl⟩, ?_⟩
    rintro r hr
    rcases List.mem_map.1 hr with ⟨ij, -, rfl⟩
    rfl

/-- One-profile dataset used to instantiate the uniform-identifier claim. -/
def dsC10 : Dataset where
  platform := some (PlatformVar.scalar " 9901234 ")
  cycle_number := some [Val.num 4]
  juld := some [JuldInput.nan]
  latitude := some [Val.num 0]
  longitude := some [Val.num 0]
  data_mode := some ['R']
  nProf := 1
  nLevels := 1
  pres := some (gridOf [[Val.num 2]])
  temp := none
  temp_adjusted := none
  psal := none
  psal_adjusted := none

/-- The single record extraction emits for `dsC10`. -/
def recC10 : Record where
  wmo_float_id := "9901234"
  cycle_id := Val.num 4
  date_time_utc := none
  latitude := Val.num 0
  longitude := Val.num 0
  pressure_dbar := Val.num 2
  temperature_c := Val.nan
  salinity_psu := Val.nan
  data_mode := some 'R'

theorem C10_uniform_float_id_witness :
    (∀ r ∈ [recC10], ∀ r2 ∈ [recC10], r.wmo_float_id = r2.wmo_float_id) ∧
    (∃ recs2, parse_argo_file { dsC10 with platform := none } = .ok recs2 ∧
      ∀ r ∈ recs2, r.wmo_float_id = "UNKNOWN") :=
  C10_uniform_float_id dsC10 [recC10] (by decide)
